import Mathlib

/-!
Verification of the raffle ("lottery") core specified for the
lottery-backend-fcc repository.  The repository's visible files are the
Hardhat configuration and the unit-test suite for a `Raffle` contract; the
contract itself is not among the sources, so every operation below is
modelled from the specification's words (its data model in section 3, the
component contracts in section 4, and the testable properties in
section 8), and checked against what the test suite asserts.

Participants, timestamps, request identifiers and monetary amounts are
modelled as natural numbers; monetary arithmetic in the spec is exact
integer arithmetic, so `Nat` is faithful.
-/

namespace Raffle

/-- Modelled from the spec: `state`: enum luck-of-the-draw round phase,
OPEN accepts entries; DRAWING rejects entries and awaits a random value.
(The contract code is absent from the sources; the tests read this back
via `getRaffleState`, with OPEN rendered as `"0"` and DRAWING as `"1"`.) -/
inductive RaffleState
  | OPEN
  | DRAWING
deriving DecidableEq, Repr

/-- Modelled from the spec: deploy-time configuration — the fixed entrance
fee and the minimum elapsed time between draws. -/
structure RaffleConfig where
  entranceFee : Nat
  interval : Nat
deriving DecidableEq, Repr

/-- Modelled from the spec: the `Round` record of the data model —
its `state`, the ordered `entrants` sequence (duplicates allowed), the
`poolBalance`, the `lastDrawTimestamp`, the `pendingRequestId` of the
in-flight randomness request, plus the recent-winner read-only accessor
the tests query via `getRecentWinner`. -/
structure Round where
  state : RaffleState
  entrants : List Nat
  poolBalance : Nat
  lastDrawTimestamp : Nat
  pendingRequestId : Option Nat
  recentWinner : Option Nat
deriving DecidableEq, Repr

/-- Modelled from the spec: the error kinds of section 7
(`InsufficientFee`, `RoundNotOpen`, `UpkeepNotNeeded{balance, entrantCount,
state}`, `UnknownRequest`, `PayoutFailed`), plus `overpayment` for the
rejection of `feePaid > fee` that section 4.1 mandates ("overpayment is
not supported and must be rejected") without naming an error kind for it. -/
inductive RaffleError
  | insufficientFee
  | roundNotOpen
  | overpayment
  | upkeepNotNeeded (currentBalance : Nat) (entrantCount : Nat) (state : RaffleState)
  | unknownRequest
  | payoutFailed
deriving DecidableEq, Repr

/-- Modelled from the spec: the observability events of section 6 —
`EntryRecorded(participant)`, `DrawRequested(requestId)`, and the
"winner picked" event carrying the winner identifier and the amount. -/
inductive Event
  | entryRecorded (participant : Nat)
  | drawRequested (requestId : Nat)
  | winnerPicked (winner : Nat) (amount : Nat)
deriving DecidableEq, Repr

/-- Result of one mutating operation: the round after the operation (the
round passed in, unchanged, whenever the operation is rejected — section 7
forbids partial effects), the surfaced error if any, the events emitted,
and the payout transfer performed (recipient, amount), if any. -/
structure Outcome where
  round : Round
  error : Option RaffleError
  events : List Event
  paid : Option (Nat × Nat)
deriving DecidableEq, Repr

/-- Modelled from the spec: `enterRaffle(payment)` delegating to
`EntryLedger.admit(participant, feePaid)`.  `InsufficientFee` when
`feePaid < fee` (section 8: entering with less than the fee always fails
with `InsufficientFee`, so this check comes first, matching the test
"reverts when you don't pay enough"); `RoundNotOpen` when state is not
OPEN (test "doesnt allow entrance when calculating"); overpayment is
rejected, not accepted as extra credit; on success the participant is
appended to `entrants` and `feePaid` is added to `poolBalance`. -/
def enterRaffle (cfg : RaffleConfig) (r : Round) (participant feePaid : Nat) : Outcome :=
  if feePaid < cfg.entranceFee then
    ⟨r, some RaffleError.insufficientFee, [], none⟩
  else if r.state ≠ RaffleState.OPEN then
    ⟨r, some RaffleError.roundNotOpen, [], none⟩
  else if cfg.entranceFee < feePaid then
    ⟨r, some RaffleError.overpayment, [], none⟩
  else
    ⟨{ r with entrants := r.entrants ++ [participant],
              poolBalance := r.poolBalance + feePaid },
      none, [Event.entryRecorded participant], none⟩

/-- Modelled from the spec: the pure `UpkeepEvaluator.checkUpkeep(round,
now)` predicate — eligible iff state is OPEN, `now - lastDrawTimestamp ≥
interval`, `entrants` is non-empty, and `poolBalance > 0`. -/
def checkUpkeep (cfg : RaffleConfig) (r : Round) (now : Nat) : Bool :=
  decide (r.state = RaffleState.OPEN)
    && decide (cfg.interval ≤ now - r.lastDrawTimestamp)
    && !r.entrants.isEmpty
    && decide (0 < r.poolBalance)

/-- Modelled from the spec: `performUpkeep` delegating to
`RaffleStateMachine.triggerDraw(now)`.  It re-validates the four
eligibility conditions; on success it sets `state = DRAWING`, stores the
request id returned by `RandomnessGateway.request()` (passed in here as
`freshRequestId`) as `pendingRequestId`, and emits the draw-started
event; on failure it fails with `UpkeepNotNeeded(currentBalance,
entrantCount, state)` and does not mutate state. -/
def performUpkeep (cfg : RaffleConfig) (r : Round) (now freshRequestId : Nat) : Outcome :=
  if checkUpkeep cfg r now then
    ⟨{ r with state := RaffleState.DRAWING,
              pendingRequestId := some freshRequestId },
      none, [Event.drawRequested freshRequestId], none⟩
  else
    ⟨r, some (RaffleError.upkeepNotNeeded r.poolBalance r.entrants.length r.state), [], none⟩

/-- Modelled from the spec: `SettlementEngine.settle(randomValue, round)`.
Winner index is `randomValue mod len(entrants)` over the ordered entrant
sequence.  The payout transfer is attempted before the reset commits; the
external transfer's success is the `transferOk` argument.  On success the
entire `poolBalance` is transferred to the winner, the winner-picked
event is emitted, the ledger is reset, `state` returns to OPEN, and
`lastDrawTimestamp` becomes the settlement time; on transfer failure the
round is NOT settled — state and balance are retained and the terminal
`PayoutFailed` error is surfaced. -/
def settle (r : Round) (randomValue now : Nat) (transferOk : Bool) : Outcome :=
  let winner := r.entrants.getD (randomValue % r.entrants.length) 0
  if transferOk then
    ⟨{ state := RaffleState.OPEN, entrants := [], poolBalance := 0,
       lastDrawTimestamp := now, pendingRequestId := none,
       recentWinner := some winner },
      none, [Event.winnerPicked winner r.poolBalance], some (winner, r.poolBalance)⟩
  else
    ⟨r, some RaffleError.payoutFailed, [], none⟩

/-- Modelled from the spec: `RandomnessGateway.fulfill(requestId,
randomValue)`, the externally invoked `fulfillRandomWords`.  It fails
with `UnknownRequest` when `requestId` does not match the current
`pendingRequestId` (also when none is pending), leaving the round
unchanged; on a match it clears `pendingRequestId` and forwards the value
to the settlement engine. -/
def fulfillRandomWords (r : Round) (requestId randomValue now : Nat) (transferOk : Bool) :
    Outcome :=
  match r.pendingRequestId with
  | some pid =>
      if requestId = pid then
        settle { r with pendingRequestId := none } randomValue now transferOk
      else
        ⟨r, some RaffleError.unknownRequest, [], none⟩
  | none => ⟨r, some RaffleError.unknownRequest, [], none⟩

/-- Modelled from the spec: the read-only accessor `getPlayer(i)` into the
ordered entrants list; out-of-range access fails (`none`) rather than
returning a default, as the test "picks winner, resets the lottery"
asserts via `expect(raffle.getPlayer(0)).to.be.reverted` after reset. -/
def getPlayer (r : Round) (i : Nat) : Option Nat :=
  r.entrants[i]?

/-- The data-model invariant of section 3: a `pendingRequestId` exists if
and only if `state == DRAWING`. -/
def pendingIffDrawing (r : Round) : Prop :=
  r.pendingRequestId.isSome = true ↔ r.state = RaffleState.DRAWING

instance (r : Round) : Decidable (pendingIffDrawing r) := by
  unfold pendingIffDrawing
  infer_instance

end Raffle

namespace Raffle

/-- C1: for a round in state DRAWING with non-empty entrants of length N
and delivered random value v, successful settlement pays the entrant at
index `v % N` the entire pool balance, emits the winner-picked event,
resets entrants to empty and the pool balance to zero, returns the state
to OPEN, and sets `lastDrawTimestamp` to the settlement time. -/
theorem settlement_pays_modulo_winner_and_resets
    (r : Round) (pid v now : Nat)
    (hstate : r.state = RaffleState.DRAWING)
    (hne : r.entrants ≠ [])
    (hpid : r.pendingRequestId = some pid) :
    (fulfillRandomWords r pid v now true).error = none ∧
    (fulfillRandomWords r pid v now true).paid =
      some (r.entrants.getD (v % r.entrants.length) 0, r.poolBalance) ∧
    (fulfillRandomWords r pid v now true).events =
      [Event.winnerPicked (r.entrants.getD (v % r.entrants.length) 0) r.poolBalance] ∧
    (fulfillRandomWords r pid v now true).round.entrants = [] ∧
    (fulfillRandomWords r pid v now true).round.poolBalance = 0 ∧
    (fulfillRandomWords r pid v now true).round.state = RaffleState.OPEN ∧
    (fulfillRandomWords r pid v now true).round.lastDrawTimestamp = now := by
  simp [fulfillRandomWords, hpid, settle]

/-- Concrete run of `settlement_pays_modulo_winner_and_resets`: three
entrants, random value 5, winner slot 5 % 3 = 2. -/
theorem settlement_pays_modulo_winner_and_resets_witness :
    (fulfillRandomWords ⟨RaffleState.DRAWING, [10, 20, 30], 15, 0, some 7, none⟩ 7 5 100 true).error = none ∧
    (fulfillRandomWords ⟨RaffleState.DRAWING, [10, 20, 30], 15, 0, some 7, none⟩ 7 5 100 true).paid =
      some (([10, 20, 30] : List Nat).getD (5 % ([10, 20, 30] : List Nat).length) 0, 15) ∧
    (fulfillRandomWords ⟨RaffleState.DRAWING, [10, 20, 30], 15, 0, some 7, none⟩ 7 5 100 true).events =
      [Event.winnerPicked (([10, 20, 30] : List Nat).getD (5 % ([10, 20, 30] : List Nat).length) 0) 15] ∧
    (fulfillRandomWords ⟨RaffleState.DRAWING, [10, 20, 30], 15, 0, some 7, none⟩ 7 5 100 true).round.entrants = [] ∧
    (fulfillRandomWords ⟨RaffleState.DRAWING, [10, 20, 30], 15, 0, some 7, none⟩ 7 5 100 true).round.poolBalance = 0 ∧
    (fulfillRandomWords ⟨RaffleState.DRAWING, [10, 20, 30], 15, 0, some 7, none⟩ 7 5 100 true).round.state = RaffleState.OPEN ∧
    (fulfillRandomWords ⟨RaffleState.DRAWING, [10, 20, 30], 15, 0, some 7, none⟩ 7 5 100 true).round.lastDrawTimestamp = 100 :=
  settlement_pays_modulo_winner_and_resets
    ⟨RaffleState.DRAWING, [10, 20, 30], 15, 0, some 7, none⟩ 7 5 100
    rfl (by decide) rfl

/-- C2: `checkUpkeep` is true iff all four eligibility conditions hold:
state OPEN, elapsed time at least the interval, entrants non-empty, and a
positive pool balance; it is false whenever any one of them fails. -/
theorem checkUpkeep_true_iff_all_four
    (cfg : RaffleConfig) (r : Round) (now : Nat) :
    checkUpkeep cfg r now = true ↔
      (r.state = RaffleState.OPEN ∧ cfg.interval ≤ now - r.lastDrawTimestamp ∧
        r.entrants ≠ [] ∧ 0 < r.poolBalance) := by
  simp [checkUpkeep, List.isEmpty_iff, and_assoc]

/-- C3: whenever `checkUpkeep` would return false, `performUpkeep` fails
with `UpkeepNotNeeded(currentBalance, entrantCount, state)` and leaves
the whole round unchanged. -/
theorem performUpkeep_not_needed_fails_unchanged
    (cfg : RaffleConfig) (r : Round) (now freshRequestId : Nat)
    (h : checkUpkeep cfg r now = false) :
    performUpkeep cfg r now freshRequestId =
      ⟨r, some (RaffleError.upkeepNotNeeded r.poolBalance r.entrants.length r.state),
        [], none⟩ := by
  simp [performUpkeep, h]

/-- Concrete run of `performUpkeep_not_needed_fails_unchanged`: the fresh
round of the test "reverts checkUpkeep is false" — no entrants, zero
balance — fails with `UpkeepNotNeeded(0, 0, OPEN)`. -/
theorem performUpkeep_not_needed_fails_unchanged_witness :
    performUpkeep ⟨10, 30⟩ ⟨RaffleState.OPEN, [], 0, 0, none, none⟩ 31 1 =
      ⟨⟨RaffleState.OPEN, [], 0, 0, none, none⟩,
        some (RaffleError.upkeepNotNeeded 0 0 RaffleState.OPEN), [], none⟩ := by
  have h := performUpkeep_not_needed_fails_unchanged
    ⟨10, 30⟩ ⟨RaffleState.OPEN, [], 0, 0, none, none⟩ 31 1 (by decide)
  simpa using h

end Raffle

namespace Raffle

/-- C4 counterexample: the claim as stated fails on the payout-failure
path the spec itself prescribes.  Starting from a DRAWING round whose
pending id is 1, a matching fulfillment whose payout transfer fails
leaves the round in state DRAWING with `pendingRequestId` cleared, so
after this operation a pending id exists in neither direction of the
claimed iff: the state is DRAWING yet no `pendingRequestId` exists. -/
theorem fulfill_payout_failure_breaks_pending_iff_drawing :
    (fulfillRandomWords ⟨RaffleState.DRAWING, [3], 10, 0, some 1, none⟩ 1 0 50 false).round.state
        = RaffleState.DRAWING ∧
    (fulfillRandomWords ⟨RaffleState.DRAWING, [3], 10, 0, some 1, none⟩ 1 0 50 false).round.pendingRequestId
        = none ∧
    ¬ pendingIffDrawing
        (fulfillRandomWords ⟨RaffleState.DRAWING, [3], 10, 0, some 1, none⟩ 1 0 50 false).round := by
  refine ⟨rfl, rfl, ?_⟩
  decide

/-- C4 amended: every operation whose payout transfer succeeds preserves
the invariant that a `pendingRequestId` exists iff the state is DRAWING;
a successful `performUpkeep`/triggerDraw sets state DRAWING and stores
the fresh request id, fulfillment with a successful transfer returns the
round to OPEN with the id cleared, and a second trigger while DRAWING
fails.  (Only a failed payout transfer leaves DRAWING with the id
cleared, the terminal `PayoutFailed` situation of the spec.) -/
theorem operations_preserve_pending_iff_drawing
    (cfg : RaffleConfig) (r : Round) (p f now freshRequestId rid rv : Nat)
    (hinv : pendingIffDrawing r) :
    pendingIffDrawing (enterRaffle cfg r p f).round ∧
    pendingIffDrawing (performUpkeep cfg r now freshRequestId).round ∧
    ((performUpkeep cfg r now freshRequestId).error = none →
      (performUpkeep cfg r now freshRequestId).round.state = RaffleState.DRAWING ∧
      (performUpkeep cfg r now freshRequestId).round.pendingRequestId = some freshRequestId) ∧
    pendingIffDrawing (fulfillRandomWords r rid rv now true).round ∧
    (r.state = RaffleState.DRAWING →
      (performUpkeep cfg r now freshRequestId).error ≠ none) := by
  unfold pendingIffDrawing at hinv ⊢
  refine ⟨?_, ?_, ?_, ?_, ?_⟩
  · unfold enterRaffle
    split <;> [exact hinv; skip]
    split <;> [exact hinv; skip]
    split <;> [exact hinv; simpa using hinv]
  · unfold performUpkeep
    split <;> simp [hinv]
  · unfold performUpkeep
    split <;> simp
  · unfold fulfillRandomWords
    rcases hp : r.pendingRequestId with _ | pid
    · exact hinv
    · by_cases hrid : rid = pid
      · simp [hrid, settle]
      · simp [hrid, hinv]
  · intro hdraw
    unfold performUpkeep
    have hfalse : checkUpkeep cfg r now = false := by
      simp [checkUpkeep, hdraw]
    simp [hfalse]

/-- Concrete run of `operations_preserve_pending_iff_drawing` on an OPEN
round with one entrant, discharging the invariant hypothesis. -/
theorem operations_preserve_pending_iff_drawing_witness :
    pendingIffDrawing (enterRaffle ⟨10, 30⟩ ⟨RaffleState.OPEN, [4], 10, 0, none, none⟩ 5 10).round ∧
    pendingIffDrawing (performUpkeep ⟨10, 30⟩ ⟨RaffleState.OPEN, [4], 10, 0, none, none⟩ 31 1).round ∧
    ((performUpkeep ⟨10, 30⟩ ⟨RaffleState.OPEN, [4], 10, 0, none, none⟩ 31 1).error = none →
      (performUpkeep ⟨10, 30⟩ ⟨RaffleState.OPEN, [4], 10, 0, none, none⟩ 31 1).round.state = RaffleState.DRAWING ∧
      (performUpkeep ⟨10, 30⟩ ⟨RaffleState.OPEN, [4], 10, 0, none, none⟩ 31 1).round.pendingRequestId = some 1) ∧
    pendingIffDrawing (fulfillRandomWords ⟨RaffleState.OPEN, [4], 10, 0, none, none⟩ 2 9 31 true).round ∧
    (Round.state ⟨RaffleState.OPEN, [4], 10, 0, none, none⟩ = RaffleState.DRAWING →
      (performUpkeep ⟨10, 30⟩ ⟨RaffleState.OPEN, [4], 10, 0, none, none⟩ 31 1).error ≠ none) :=
  operations_preserve_pending_iff_drawing ⟨10, 30⟩ ⟨RaffleState.OPEN, [4], 10, 0, none, none⟩
    5 10 31 1 2 9 (by decide)

end Raffle

namespace Raffle

/-- C5 counterexample: entering a DRAWING round with an underpayment does
not fail with the RoundNotOpen-class error the claim requires for any
payment — the fee check fires first ("entering with less than the fee
always fails with InsufficientFee"), so paying 5 against a fee of 10
while DRAWING surfaces `insufficientFee`, not `roundNotOpen`. -/
theorem enter_drawing_underpaid_not_roundNotOpen :
    (enterRaffle ⟨10, 30⟩ ⟨RaffleState.DRAWING, [4], 10, 0, some 1, none⟩ 7 5).error
        = some RaffleError.insufficientFee ∧
    (enterRaffle ⟨10, 30⟩ ⟨RaffleState.DRAWING, [4], 10, 0, some 1, none⟩ 7 5).error
        ≠ some RaffleError.roundNotOpen := by
  refine ⟨rfl, ?_⟩
  decide

/-- C5 amended: while DRAWING, every entry attempt is rejected and the
round is left unchanged — with `RoundNotOpen` whenever the payment is at
least the entrance fee, and with `InsufficientFee` (the fee check firing
first) when it is below; entries are accepted only while OPEN. -/
theorem enter_while_drawing_rejected_unchanged
    (cfg : RaffleConfig) (r : Round) (p f : Nat)
    (hdraw : r.state = RaffleState.DRAWING) :
    (cfg.entranceFee ≤ f →
      (enterRaffle cfg r p f).error = some RaffleError.roundNotOpen) ∧
    (f < cfg.entranceFee →
      (enterRaffle cfg r p f).error = some RaffleError.insufficientFee) ∧
    (enterRaffle cfg r p f).error ≠ none ∧
    (enterRaffle cfg r p f).round = r := by
  have hnot : r.state ≠ RaffleState.OPEN := by simp [hdraw]
  unfold enterRaffle
  by_cases hf : f < cfg.entranceFee
  · simp [hf]
  · simp [hf, hnot]

/-- Concrete run of `enter_while_drawing_rejected_unchanged`: exact fee
paid into a DRAWING round is rejected with `RoundNotOpen`. -/
theorem enter_while_drawing_rejected_unchanged_witness :
    ((10 : Nat) ≤ 10 →
      (enterRaffle ⟨10, 30⟩ ⟨RaffleState.DRAWING, [4], 10, 0, some 1, none⟩ 7 10).error
        = some RaffleError.roundNotOpen) ∧
    ((10 : Nat) < 10 →
      (enterRaffle ⟨10, 30⟩ ⟨RaffleState.DRAWING, [4], 10, 0, some 1, none⟩ 7 10).error
        = some RaffleError.insufficientFee) ∧
    (enterRaffle ⟨10, 30⟩ ⟨RaffleState.DRAWING, [4], 10, 0, some 1, none⟩ 7 10).error ≠ none ∧
    (enterRaffle ⟨10, 30⟩ ⟨RaffleState.DRAWING, [4], 10, 0, some 1, none⟩ 7 10).round
        = ⟨RaffleState.DRAWING, [4], 10, 0, some 1, none⟩ :=
  enter_while_drawing_rejected_unchanged ⟨10, 30⟩
    ⟨RaffleState.DRAWING, [4], 10, 0, some 1, none⟩ 7 10 rfl

/-- Any fulfillment against a round with no pending request is rejected
with `UnknownRequest`, leaving the round unchanged. -/
theorem fulfill_no_pending_rejected
    (r : Round) (rid rv now : Nat) (tOk : Bool)
    (h : r.pendingRequestId = none) :
    fulfillRandomWords r rid rv now tOk =
      ⟨r, some RaffleError.unknownRequest, [], none⟩ := by
  unfold fulfillRandomWords
  rw [h]

/-- A fulfillment that surfaces no error leaves no pending request id. -/
theorem fulfill_ok_clears_pending
    (r : Round) (rid rv now : Nat) (tOk : Bool)
    (h : (fulfillRandomWords r rid rv now tOk).error = none) :
    (fulfillRandomWords r rid rv now tOk).round.pendingRequestId = none := by
  unfold fulfillRandomWords at h ⊢
  rcases hp : r.pendingRequestId with _ | pid
  · simp [hp] at h
  · by_cases hrid : rid = pid
    · rcases tOk with _ | _
      · simp [hp, hrid, settle] at h
      · simp [hrid, settle]
    · simp [hp, hrid] at h

/-- C6: a fulfillment whose request id is not the current pending id —
also when no request is pending at all — fails with `UnknownRequest` and
leaves the round entirely unchanged (no events, no payment); and after
any successful fulfillment the pending id is cleared, so fulfilling the
same id again fails with `UnknownRequest`: each pending id is fulfilled
at most once. -/
theorem fulfill_unknown_request_rejected_and_no_replay
    (r : Round) (rid rid2 rv rv2 now now2 : Nat) (tOk tOk2 : Bool)
    (h : r.pendingRequestId ≠ some rid) :
    fulfillRandomWords r rid rv now tOk =
      ⟨r, some RaffleError.unknownRequest, [], none⟩ ∧
    ((fulfillRandomWords r rid2 rv now tOk).error = none →
      (fulfillRandomWords (fulfillRandomWords r rid2 rv now tOk).round rid2 rv2 now2 tOk2).error
        = some RaffleError.unknownRequest) := by
  constructor
  · unfold fulfillRandomWords
    rcases hp : r.pendingRequestId with _ | pid
    · rfl
    · have hne : rid ≠ pid := by
        intro hc
        exact h (hc ▸ hp)
      simp [hne]
  · intro hok
    rw [fulfill_no_pending_rejected _ _ _ _ _ (fulfill_ok_clears_pending r rid2 rv now tOk hok)]

/-- Concrete run of `fulfill_unknown_request_rejected_and_no_replay`:
request id 0 against pending id 2 (the mock-coordinator call of the test
"can only be called after performUpkeep") is rejected, and replaying
id 2 after its successful fulfillment is rejected. -/
theorem fulfill_unknown_request_rejected_and_no_replay_witness :
    fulfillRandomWords ⟨RaffleState.DRAWING, [4], 10, 0, some 2, none⟩ 0 6 40 true =
      ⟨⟨RaffleState.DRAWING, [4], 10, 0, some 2, none⟩,
        some RaffleError.unknownRequest, [], none⟩ ∧
    ((fulfillRandomWords ⟨RaffleState.DRAWING, [4], 10, 0, some 2, none⟩ 2 6 40 true).error = none →
      (fulfillRandomWords
          (fulfillRandomWords ⟨RaffleState.DRAWING, [4], 10, 0, some 2, none⟩ 2 6 40 true).round
          2 8 77 true).error = some RaffleError.unknownRequest) :=
  fulfill_unknown_request_rejected_and_no_replay
    ⟨RaffleState.DRAWING, [4], 10, 0, some 2, none⟩ 0 2 6 8 40 77 true true (by decide)

end Raffle

namespace Raffle

/-- C7: entry succeeds only on an exact fee match — underpayment fails
with `InsufficientFee`, overpayment is rejected rather than accepted as
extra credit, every rejection leaves the round (entrants and pool
balance included) unchanged, and success forces the payment to equal the
fee with the round OPEN. -/
theorem enterRaffle_exact_fee_only
    (cfg : RaffleConfig) (r : Round) (p f : Nat) :
    (f < cfg.entranceFee →
      (enterRaffle cfg r p f).error = some RaffleError.insufficientFee) ∧
    (cfg.entranceFee < f → (enterRaffle cfg r p f).error ≠ none) ∧
    ((enterRaffle cfg r p f).error ≠ none → (enterRaffle cfg r p f).round = r) ∧
    ((enterRaffle cfg r p f).error = none →
      f = cfg.entranceFee ∧ r.state = RaffleState.OPEN) := by
  unfold enterRaffle
  by_cases h1 : f < cfg.entranceFee
  · simp [h1]
  · by_cases h2 : r.state = RaffleState.OPEN
    · by_cases h3 : cfg.entranceFee < f
      · simp [h1, h2, h3]
      · have : f = cfg.entranceFee := le_antisymm (not_lt.mp h3) (not_lt.mp h1)
        simp [h1, h2, h3, this]
    · simp [h1, h2]

/-- Concrete run of `enterRaffle_exact_fee_only`: paying 5 against a fee
of 10 while OPEN fails with `InsufficientFee` and leaves the round as it
was. -/
theorem enterRaffle_exact_fee_only_witness :
    ((5 : Nat) < 10 →
      (enterRaffle ⟨10, 30⟩ ⟨RaffleState.OPEN, [], 0, 0, none, none⟩ 7 5).error
        = some RaffleError.insufficientFee) ∧
    ((10 : Nat) < 5 →
      (enterRaffle ⟨10, 30⟩ ⟨RaffleState.OPEN, [], 0, 0, none, none⟩ 7 5).error ≠ none) ∧
    ((enterRaffle ⟨10, 30⟩ ⟨RaffleState.OPEN, [], 0, 0, none, none⟩ 7 5).error ≠ none →
      (enterRaffle ⟨10, 30⟩ ⟨RaffleState.OPEN, [], 0, 0, none, none⟩ 7 5).round
        = ⟨RaffleState.OPEN, [], 0, 0, none, none⟩) ∧
    ((enterRaffle ⟨10, 30⟩ ⟨RaffleState.OPEN, [], 0, 0, none, none⟩ 7 5).error = none →
      (5 : Nat) = 10 ∧
        Round.state ⟨RaffleState.OPEN, [], 0, 0, none, none⟩ = RaffleState.OPEN) :=
  enterRaffle_exact_fee_only ⟨10, 30⟩ ⟨RaffleState.OPEN, [], 0, 0, none, none⟩ 7 5

/-- C8: a valid entrance-fee payment while OPEN succeeds, appends the
participant to the ordered entrants sequence (duplicates allowed, so the
entrant count grows by exactly 1), adds exactly the fee to the pool
balance, and emits the entry-recorded event. -/
theorem enterRaffle_valid_payment_appends
    (cfg : RaffleConfig) (r : Round) (p : Nat)
    (hopen : r.state = RaffleState.OPEN) :
    enterRaffle cfg r p cfg.entranceFee =
      ⟨{ r with entrants := r.entrants ++ [p],
                poolBalance := r.poolBalance + cfg.entranceFee },
        none, [Event.entryRecorded p], none⟩ ∧
    (enterRaffle cfg r p cfg.entranceFee).round.entrants.length
      = r.entrants.length + 1 := by
  have heq : enterRaffle cfg r p cfg.entranceFee =
      ⟨{ r with entrants := r.entrants ++ [p],
                poolBalance := r.poolBalance + cfg.entranceFee },
        none, [Event.entryRecorded p], none⟩ := by
    unfold enterRaffle
    simp [hopen]
  exact ⟨heq, by rw [heq]; simp⟩

/-- Concrete run of `enterRaffle_valid_payment_appends`: the test
"records players when they enter" — one exact-fee entry into a fresh
round yields one recorded player and a pool equal to the fee. -/
theorem enterRaffle_valid_payment_appends_witness :
    enterRaffle ⟨10, 30⟩ ⟨RaffleState.OPEN, [], 0, 0, none, none⟩ 7 (10 : Nat) =
      ⟨⟨RaffleState.OPEN, [7], 10, 0, none, none⟩, none, [Event.entryRecorded 7], none⟩ ∧
    (enterRaffle ⟨10, 30⟩ ⟨RaffleState.OPEN, [], 0, 0, none, none⟩ 7 (10 : Nat)).round.entrants.length = 1 := by
  have h := enterRaffle_valid_payment_appends ⟨10, 30⟩
    ⟨RaffleState.OPEN, [], 0, 0, none, none⟩ 7 rfl
  simpa using h

/-- C9: when the payout transfer fails during settlement, the round is
not settled: the state stays DRAWING, the pool balance and entrants are
retained (no funds lost), `pendingRequestId` stays cleared, the terminal
`PayoutFailed` error is surfaced, and no payment or winner-picked event
is produced — the round is not silently re-opened. -/
theorem payout_failure_round_not_settled
    (r : Round) (pid v now : Nat)
    (hstate : r.state = RaffleState.DRAWING)
    (hpid : r.pendingRequestId = some pid) :
    fulfillRandomWords r pid v now false =
      ⟨{ r with pendingRequestId := none }, some RaffleError.payoutFailed, [], none⟩ ∧
    (fulfillRandomWords r pid v now false).round.state = RaffleState.DRAWING ∧
    (fulfillRandomWords r pid v now false).round.poolBalance = r.poolBalance ∧
    (fulfillRandomWords r pid v now false).round.entrants = r.entrants := by
  have heq : fulfillRandomWords r pid v now false =
      ⟨{ r with pendingRequestId := none }, some RaffleError.payoutFailed, [], none⟩ := by
    unfold fulfillRandomWords
    simp [hpid, settle]
  refine ⟨heq, ?_, ?_, ?_⟩ <;> rw [heq] <;> simp [hstate]

/-- Concrete run of `payout_failure_round_not_settled`: a failed transfer
on a DRAWING round with pending id 3 leaves it DRAWING with its 10-unit
pool, pending id cleared, `PayoutFailed` surfaced. -/
theorem payout_failure_round_not_settled_witness :
    fulfillRandomWords ⟨RaffleState.DRAWING, [4, 9], 10, 0, some 3, none⟩ 3 5 60 false =
      ⟨⟨RaffleState.DRAWING, [4, 9], 10, 0, none, none⟩,
        some RaffleError.payoutFailed, [], none⟩ ∧
    (fulfillRandomWords ⟨RaffleState.DRAWING, [4, 9], 10, 0, some 3, none⟩ 3 5 60 false).round.state
        = RaffleState.DRAWING ∧
    (fulfillRandomWords ⟨RaffleState.DRAWING, [4, 9], 10, 0, some 3, none⟩ 3 5 60 false).round.poolBalance
        = 10 ∧
    (fulfillRandomWords ⟨RaffleState.DRAWING, [4, 9], 10, 0, some 3, none⟩ 3 5 60 false).round.entrants
        = [4, 9] :=
  payout_failure_round_not_settled ⟨RaffleState.DRAWING, [4, 9], 10, 0, some 3, none⟩
    3 5 60 rfl rfl

/-- C10: `getPlayer i` fails (returns nothing rather than a default
value) exactly when `i` is out of range of the current entrants list; in
particular, right after a successful settlement reset the entrants list
is empty, so `getPlayer 0` fails — as the test asserts with
`expect(raffle.getPlayer(0)).to.be.reverted`. -/
theorem getPlayer_out_of_range_fails
    (r : Round) (i pid v now : Nat)
    (hpid : r.pendingRequestId = some pid) :
    (getPlayer r i = none ↔ r.entrants.length ≤ i) ∧
    getPlayer (fulfillRandomWords r pid v now true).round 0 = none := by
  constructor
  · unfold getPlayer
    exact List.getElem?_eq_none_iff
  · unfold fulfillRandomWords
    simp [hpid, settle, getPlayer]

/-- Concrete run of `getPlayer_out_of_range_fails`: after the settlement
of a two-entrant round, `getPlayer 0` fails; and on that starting round
`getPlayer 2` fails while `getPlayer 0` does not. -/
theorem getPlayer_out_of_range_fails_witness :
    (getPlayer ⟨RaffleState.DRAWING, [4, 9], 10, 0, some 3, none⟩ 2 = none ↔
      (List.length [4, 9] ≤ 2)) ∧
    getPlayer (fulfillRandomWords ⟨RaffleState.DRAWING, [4, 9], 10, 0, some 3, none⟩ 3 5 60 true).round 0
      = none :=
  getPlayer_out_of_range_fails ⟨RaffleState.DRAWING, [4, 9], 10, 0, some 3, none⟩ 2 3 5 60 rfl

end Raffle
